import Mathlib

/-!
Verification of the Forecast Enrichment Engine of the conflictlens
repository (src/services/forecast_service.py, src/services/data_service.py,
src/models/schemas.py, src/main.py).

Conventions of the shallow embedding:
* Python floats are modelled as exact rationals (ℚ); Python ints as ℤ/ℕ.
* Fallible operations return `Except ApiError`.
* Optional / possibly-missing values (pandas `.get`, nullable columns)
  are modelled as `Option`.
* The numpy legacy global random generator is modelled explicitly: a
  state value is threaded through, and `np.random.seed` replaces it,
  which is exactly what makes `_generate_synthetic_metrics` independent
  of the incoming global state.
-/

set_option maxRecDepth 100000

/-- Error taxonomy of the engine: `DataNotFoundError`
(src/utils/exceptions.py) maps to `notFound`; a pydantic validation
failure while building `MetricSelection` (src/models/schemas.py) maps to
`invalidArgument`. -/
inductive ApiError where
  | notFound
  | invalidArgument
deriving DecidableEq, Repr

/-- Embeds `ConflictType` (src/models/schemas.py:24-28). -/
inductive ConflictType where
  | STATE_BASED
  | NON_STATE
  | ONE_SIDED
deriving DecidableEq, Repr

/-- The string value of each `ConflictType` enum member. -/
def ConflictType.tag : ConflictType → String
  | .STATE_BASED => "sb"
  | .NON_STATE => "ns"
  | .ONE_SIDED => "os"

/-- Pydantic coercion of a raw string into the str-valued enum
`ConflictType`: an unknown value is rejected. -/
def ConflictType.from_tag (s : String) : Option ConflictType :=
  if s = "sb" then some .STATE_BASED
  else if s = "ns" then some .NON_STATE
  else if s = "os" then some .ONE_SIDED
  else none

/-- Embeds `MetricSelection` (src/models/schemas.py:31-41) with its
field defaults. -/
structure MetricSelection where
  include_map : Bool := true
  include_hdi_50 : Bool := false
  include_hdi_90 : Bool := true
  include_hdi_99 : Bool := false
  include_thresholds : Bool := true
  conflict_types : List ConflictType := [.STATE_BASED]
deriving DecidableEq, Repr

/-- A raw, not yet validated metric-selection configuration as it
arrives from the transport layer: the conflict-type tags are plain
strings that pydantic still has to coerce into `ConflictType`. -/
structure RawMetricSelection where
  include_map : Bool := true
  include_hdi_50 : Bool := false
  include_hdi_90 : Bool := true
  include_hdi_99 : Bool := false
  include_thresholds : Bool := true
  conflict_types : List String := ["sb"]
deriving DecidableEq, Repr

/-- Pydantic validation of the conflict-type tag list: the first
unknown tag aborts construction of the model. -/
def parse_conflict_types : List String → Except ApiError (List ConflictType)
  | [] => .ok []
  | t :: ts =>
    match ConflictType.from_tag t with
    | none => .error .invalidArgument
    | some c =>
      match parse_conflict_types ts with
      | .error e => .error e
      | .ok cs => .ok (c :: cs)

/-- Building a `MetricSelection` from raw transport-layer input;
fails with `invalidArgument` when a conflict-type tag is unknown. -/
def parse_metric_selection (raw : RawMetricSelection) : Except ApiError MetricSelection :=
  match parse_conflict_types raw.conflict_types with
  | .error e => .error e
  | .ok cs =>
    .ok { include_map := raw.include_map
          include_hdi_50 := raw.include_hdi_50
          include_hdi_90 := raw.include_hdi_90
          include_hdi_99 := raw.include_hdi_99
          include_thresholds := raw.include_thresholds
          conflict_types := cs }

/-! ### numpy legacy RandomState (MT19937)

`_generate_synthetic_metrics` drives `np.random.seed` /
`np.random.uniform`, i.e. the numpy legacy global `RandomState`.
Modelled from the numpy legacy semantics: seeding an integer `s < 2^32`
runs the standard MT19937 `init_genrand` recurrence, and each
`random_sample` consumes two 32-bit outputs `a, b` of the generator and
returns `((a >> 5) * 2^26 + (b >> 6)) / 2^53`.
Only the first 227 outputs after seeding are ever consumed here (the
code draws 9 uniforms = 18 outputs per call), so the twist is embedded
in its wrap-around-free form, valid for output indices below 227. -/

/-- One step of the MT19937 `init_genrand` seeding recurrence. -/
def mtStep (i prev : ℕ) : ℕ :=
  (1812433253 * (prev ^^^ (prev >>> 30)) + i) % 4294967296

/-- Word `i` of the MT19937 state right after seeding. -/
def mtVal (seed : ℕ) : ℕ → ℕ
  | 0 => seed % 4294967296
  | i + 1 => mtStep (i + 1) (mtVal seed i)

/-- Word `i` of the MT19937 state after the first twist, in the
wrap-around-free form valid for `i < 227`. -/
def twistedWord (seed i : ℕ) : ℕ :=
  let y := (mtVal seed i &&& 0x80000000) + (mtVal seed (i + 1) &&& 0x7fffffff)
  let v := mtVal seed (i + 397) ^^^ (y >>> 1)
  if y % 2 == 1 then v ^^^ 0x9908b0df else v

/-- The MT19937 tempering transform. -/
def temper (y : ℕ) : ℕ :=
  let y1 := y ^^^ (y >>> 11)
  let y2 := y1 ^^^ ((y1 <<< 7) &&& 0x9d2c5680)
  let y3 := y2 ^^^ ((y2 <<< 15) &&& 0xefc60000)
  y3 ^^^ (y3 >>> 18)

/-- 32-bit output number `k` of a freshly seeded MT19937 generator
(valid for `k < 227`). -/
def mtOutput (seed k : ℕ) : ℕ := temper (twistedWord seed k)

/-- The numpy legacy global generator state: the seed of the current
MT19937 instance together with the number of 32-bit outputs already
consumed. -/
structure NpRandomState where
  seed_val : ℕ
  pos : ℕ
deriving DecidableEq, Repr

/-- Embeds `np.random.seed(s)`: installs a freshly seeded generator,
discarding the previous global state. -/
def np_seed (s : ℕ) : NpRandomState := ⟨s % 4294967296, 0⟩

/-- Embeds numpy `random_sample` (`rk_double`): two 32-bit outputs give
a double in `[0, 1)`. -/
def rk_double (st : NpRandomState) : ℚ × NpRandomState :=
  let a := mtOutput st.seed_val st.pos >>> 5
  let b := mtOutput st.seed_val (st.pos + 1) >>> 6
  (((a * 67108864 + b : ℕ) : ℚ) / 9007199254740992, ⟨st.seed_val, st.pos + 2⟩)

/-- Embeds `np.random.uniform(low, high)` for scalars:
`low + (high - low) * random_sample()`. -/
def np_uniform (low high : ℚ) (st : NpRandomState) : ℚ × NpRandomState :=
  let r := rk_double st
  (low + (high - low) * r.1, r.2)

/-- Python `int()` on a rational: truncation toward zero. -/
def rat_trunc (q : ℚ) : ℤ := if 0 ≤ q then ⌊q⌋ else ⌈q⌉

/-- The seed `int(base_prob * 10000) % 2**32` of
`_generate_synthetic_metrics` (src/services/forecast_service.py:314). -/
def seed_of_prob (p : ℚ) : ℕ := (rat_trunc (p * 10000) % (4294967296 : ℤ)).toNat

/-- The record of values returned by `_generate_synthetic_metrics`
(src/services/forecast_service.py:311-329). -/
structure SyntheticMetrics where
  hdi_50_lower : ℚ
  hdi_50_upper : ℚ
  hdi_99_lower : ℚ
  hdi_99_upper : ℚ
  threshold_2 : ℚ
  threshold_3 : ℚ
  threshold_4 : ℚ
  threshold_5 : ℚ
  threshold_6 : ℚ
deriving DecidableEq, Repr

/-- Embeds `_generate_synthetic_metrics`
(src/services/forecast_service.py:311-329), with the incoming global
generator state made explicit. The function starts with
`np.random.seed(int(base_prob * 10000) % 2**32)` and then draws nine
uniforms in the evaluation order of the dict literal. -/
def generate_synthetic_metrics_st (rng : NpRandomState) (base_prob : ℚ) :
    SyntheticMetrics :=
  let _ := rng  -- replaced by the reseed below; the code never reads it
  let st0 := np_seed (seed_of_prob base_prob)
  let r1 := np_uniform 0.001 0.005 st0
  let r2 := np_uniform 0.001 0.005 r1.2
  let r3 := np_uniform 0.01 0.03 r2.2
  let r4 := np_uniform 0.01 0.03 r3.2
  let r5 := np_uniform 0.001 0.01 r4.2
  let r6 := np_uniform 0.01 0.02 r5.2
  let r7 := np_uniform 0.02 0.04 r6.2
  let r8 := np_uniform 0.03 0.06 r7.2
  let r9 := np_uniform 0.05 0.08 r8.2
  { hdi_50_lower := max 0 (base_prob - r1.1)
    hdi_50_upper := min 1 (base_prob + r2.1)
    hdi_99_lower := max 0 (base_prob - r3.1)
    hdi_99_upper := min 1 (base_prob + r4.1)
    threshold_2 := max 0 (base_prob - r5.1)
    threshold_3 := max 0 (base_prob - r6.1)
    threshold_4 := max 0 (base_prob - r7.1)
    threshold_5 := max 0 (base_prob - r8.1)
    threshold_6 := max 0 (base_prob - r9.1) }

/-- `_generate_synthetic_metrics` as called in the service: the global
generator state it runs under is irrelevant (see
`generate_synthetic_metrics_st`). -/
def generate_synthetic_metrics (base_prob : ℚ) : SyntheticMetrics :=
  generate_synthetic_metrics_st (np_seed 0) base_prob


/-! ### MD5

`generate_coordinates` / `_generate_coordinates_for_grid`
(src/services/forecast_service.py:136-148 and 297-309) hash the decimal
string of the grid id with `hashlib.md5` and parse the first 8 hex
characters of the digest, i.e. the first four digest bytes, as an
unsigned integer. The MD5 compression function is embedded below over
byte lists, with 32-bit words as naturals reduced mod 2^32. -/

/-- The 64 MD5 round constants `K[i] = floor(2^32 * abs(sin(i + 1)))`. -/
def md5K : List ℕ :=
  [3614090360, 3905402710, 606105819, 3250441966, 4118548399, 1200080426,
   2821735955, 4249261313, 1770035416, 2336552879, 4294925233, 2304563134,
   1804603682, 4254626195, 2792965006, 1236535329, 4129170786, 3225465664,
   643717713, 3921069994, 3593408605, 38016083, 3634488961, 3889429448,
   568446438, 3275163606, 4107603335, 1163531501, 2850285829, 4243563512,
   1735328473, 2368359562, 4294588738, 2272392833, 1839030562, 4259657740,
   2763975236, 1272893353, 4139469664, 3200236656, 681279174, 3936430074,
   3572445317, 76029189, 3654602809, 3873151461, 530742520, 3299628645,
   4096336452, 1126891415, 2878612391, 4237533241, 1700485571, 2399980690,
   4293915773, 2240044497, 1873313359, 4264355552, 2734768916, 1309151649,
   4149444226, 3174756917, 718787259, 3951481745]

/-- The MD5 per-round left-rotation amounts. -/
def md5S : List ℕ :=
  [7, 12, 17, 22, 7, 12, 17, 22, 7, 12, 17, 22, 7, 12, 17, 22,
   5, 9, 14, 20, 5, 9, 14, 20, 5, 9, 14, 20, 5, 9, 14, 20,
   4, 11, 16, 23, 4, 11, 16, 23, 4, 11, 16, 23, 4, 11, 16, 23,
   6, 10, 15, 21, 6, 10, 15, 21, 6, 10, 15, 21, 6, 10, 15, 21]

/-- 32-bit complement. -/
def not32 (x : ℕ) : ℕ := 4294967295 ^^^ x

/-- 32-bit left rotation. -/
def rotl32 (x s : ℕ) : ℕ := ((x <<< s) % 4294967296) ||| (x >>> (32 - s))

/-- The running MD5 state vector. -/
structure Md5State where
  a : ℕ
  b : ℕ
  c : ℕ
  d : ℕ
deriving DecidableEq, Repr

/-- One of the 64 MD5 rounds; `m` is the current 16-word block. -/
def md5Round (m : List ℕ) (st : Md5State) (i : ℕ) : Md5State :=
  let fg : ℕ × ℕ :=
    if i < 16 then ((st.b &&& st.c) ||| (not32 st.b &&& st.d), i)
    else if i < 32 then ((st.d &&& st.b) ||| (not32 st.d &&& st.c), (5 * i + 1) % 16)
    else if i < 48 then (st.b ^^^ st.c ^^^ st.d, (3 * i + 5) % 16)
    else (st.c ^^^ (st.b ||| not32 st.d), (7 * i) % 16)
  let f := (fg.1 + st.a + md5K.getD i 0 + m.getD fg.2 0) % 4294967296
  ⟨st.d, (st.b + rotl32 f (md5S.getD i 0)) % 4294967296, st.b, st.c⟩

/-- The MD5 compression function on one 16-word block. -/
def md5Compress (st : Md5State) (m : List ℕ) : Md5State :=
  let e := (List.range 64).foldl (md5Round m) st
  ⟨(st.a + e.a) % 4294967296, (st.b + e.b) % 4294967296,
   (st.c + e.c) % 4294967296, (st.d + e.d) % 4294967296⟩

/-- Group a padded byte list into little-endian 32-bit words. -/
def bytesToWordsLE : List ℕ → List ℕ
  | b0 :: b1 :: b2 :: b3 :: rest =>
    (b0 + b1 * 256 + b2 * 65536 + b3 * 16777216) :: bytesToWordsLE rest
  | _ => []

/-- Fold the compression function over the 16-word blocks of the padded
message (fuel-driven so that the definition is structurally recursive). -/
def md5Blocks : ℕ → Md5State → List ℕ → Md5State
  | 0, st, _ => st
  | _, st, [] => st
  | fuel + 1, st, ws => md5Blocks fuel (md5Compress st (ws.take 16)) (ws.drop 16)

/-- MD5 padding: append `0x80`, zero-fill so that the length becomes
56 mod 64, then append the original bit length as a little-endian
64-bit integer. -/
def md5Pad (msg : List ℕ) : List ℕ :=
  let padLen := (119 - msg.length % 64) % 64
  let bitLen := 8 * msg.length
  msg ++ 128 :: List.replicate padLen 0 ++
    [bitLen % 256, (bitLen >>> 8) % 256, (bitLen >>> 16) % 256,
     (bitLen >>> 24) % 256, (bitLen >>> 32) % 256, (bitLen >>> 40) % 256,
     (bitLen >>> 48) % 256, (bitLen >>> 56) % 256]

/-- The initial MD5 state. -/
def md5Init : Md5State := ⟨0x67452301, 0xefcdab89, 0x98badcfe, 0x10325476⟩

/-- Embeds `int(hashlib.md5(msg).hexdigest()[:8], 16)`: the first four
digest bytes are the little-endian bytes of the final `a` word, and the
hex string presents them first-byte-first. -/
def md5_first32 (msg : List ℕ) : ℕ :=
  let ws := bytesToWordsLE (md5Pad msg)
  let st := md5Blocks ws.length md5Init ws
  (st.a &&& 255) * 16777216 + ((st.a >>> 8) &&& 255) * 65536 +
    ((st.a >>> 16) &&& 255) * 256 + ((st.a >>> 24) &&& 255)

/-- ASCII digit bytes of a natural number, most significant first
(fuel-driven). -/
def decDigitsAux : ℕ → ℕ → List ℕ
  | 0, _ => []
  | fuel + 1, n =>
    if n < 10 then [48 + n]
    else decDigitsAux fuel (n / 10) ++ [48 + n % 10]

/-- The ASCII bytes of `str(g)` for a Python integer `g`. -/
def str_bytes (g : ℤ) : List ℕ :=
  if g < 0 then 45 :: decDigitsAux (g.natAbs + 1) g.natAbs
  else decDigitsAux (g.toNat + 1) g.toNat

/-- Embeds `_generate_coordinates_for_grid`
(src/services/forecast_service.py:297-309), identical to the nested
`generate_coordinates` helper (src/services/forecast_service.py:136-148):
md5-hash the decimal string of the grid id, take the first 32 bits as
`h`, and map `h` into latitude range `[-60, 70)` and longitude range
`[-180, 180)`. -/
def generate_coordinates_for_grid (grid_id : ℤ) : ℚ × ℚ :=
  let h := md5_first32 (str_bytes grid_id)
  (((h % 13000 : ℕ) : ℚ) / 100 - 60, (((h / 13000) % 36000 : ℕ) : ℚ) / 100 - 180)

/-! ### Source data model

Row types mirror the columns the engine reads from the three pandas
frames of `DataService` (src/services/data_service.py): the primary PGM
frame, the HDI frame and the timeseries/coordinate frame, plus the
country directory. Possibly-missing column values are `Option`. -/

/-- A row of the primary forecast frame (`pgm_data`). -/
structure MainRow where
  pg_id : ℤ
  month_id : ℤ
  main_mean : Option ℚ
  main_mean_ln : Option ℚ
  main_dich : Option ℚ
  country_id : Option ℤ
deriving DecidableEq, Repr

/-- A row of the HDI frame (`hdi_data`), restricted to the columns the
enrichment reads. -/
structure HdiRow where
  priogrid_id : ℤ
  month_id : ℤ
  pred_ln_sb_prob_hdi_lower : Option ℚ
  pred_ln_sb_prob_hdi_upper : Option ℚ
deriving DecidableEq, Repr

/-- A row of the coordinate frame (`timeseries_data`). -/
structure CoordRow where
  priogrid_id : ℤ
  latitude : Option ℚ
  longitude : Option ℚ
  country_id : Option ℤ
  row : Option ℤ
  col : Option ℤ
deriving DecidableEq, Repr

/-- An entry of the country directory (`country_data`). -/
structure CountryEntry where
  country_id : ℤ
  country : String
deriving DecidableEq, Repr

/-- The loaded `DataService` state: the frozen Source Store snapshot.
A `hdi_data`/`timeseries_data` of `None` in the code behaves exactly
like an empty frame in every read path, so both are lists here. -/
structure DataStore where
  is_loaded : Bool
  pgm_data : List MainRow
  hdi_data : List HdiRow
  timeseries_data : List CoordRow
  country_data : List CountryEntry
deriving DecidableEq, Repr

/-- The enriched output record: embeds `GridCellData`
(src/models/schemas.py:44-79). Every optional field is part of the
fixed shape and is `none` when not populated. -/
structure GridCellData where
  grid_id : ℤ
  month_id : ℤ
  country_id : Option ℤ
  latitude : Option ℚ
  longitude : Option ℚ
  main_mean : Option ℚ
  main_mean_ln : Option ℚ
  main_dich : Option ℚ
  hdi_50_lower : Option ℚ
  hdi_50_upper : Option ℚ
  hdi_90_lower : Option ℚ
  hdi_90_upper : Option ℚ
  hdi_99_lower : Option ℚ
  hdi_99_upper : Option ℚ
  threshold_1 : Option ℚ
  threshold_2 : Option ℚ
  threshold_3 : Option ℚ
  threshold_4 : Option ℚ
  threshold_5 : Option ℚ
  threshold_6 : Option ℚ
  conflict_type : Option ConflictType
  country_name : Option String
  year : Option ℤ
  month : Option ℤ
deriving DecidableEq, Repr

/-! ### Data service reads (src/services/data_service.py) -/

/-- Python truthiness of the `month_ids` argument: `if month_ids:` is
false both for `None` and for an empty list, so filtering is skipped in
those cases. -/
def month_list_filter (month_ids : Option (List ℤ)) (m : ℤ) : Bool :=
  match month_ids with
  | none => true
  | some [] => true
  | some ms => ms.contains m

/-- Embeds `DataService.get_grid_data`
(src/services/data_service.py:350-365): rows of the primary frame whose
`pg_id` is requested (and whose `month_id` is requested, when a
non-empty month list is given); raises `DataNotFoundError` when the
store is not loaded or when the selection is empty. -/
def get_grid_data (ds : DataStore) (grid_ids : List ℤ)
    (month_ids : Option (List ℤ)) : Except ApiError (List MainRow) :=
  if !ds.is_loaded then .error .notFound
  else
    let result := ds.pgm_data.filter
      (fun r => grid_ids.contains r.pg_id && month_list_filter month_ids r.month_id)
    if result.isEmpty then .error .notFound else .ok result

/-- Embeds `DataService.get_hdi_data`
(src/services/data_service.py:407-417): same filtering, no failure
path; a missing HDI frame is the empty list. -/
def get_hdi_data (ds : DataStore) (grid_ids : List ℤ)
    (month_ids : Option (List ℤ)) : List HdiRow :=
  ds.hdi_data.filter
    (fun h => grid_ids.contains h.priogrid_id && month_list_filter month_ids h.month_id)

/-- Embeds `DataService.get_coordinates`
(src/services/data_service.py:419-438): all rows when no grid ids are
requested, otherwise the rows whose `priogrid_id` is requested. -/
def get_coordinates (ds : DataStore) (grid_ids : List ℤ) : List CoordRow :=
  if ds.timeseries_data.isEmpty then []
  else if grid_ids.isEmpty then ds.timeseries_data
  else ds.timeseries_data.filter (fun c => grid_ids.contains c.priogrid_id)

/-- Embeds `DataService.get_available_months`
(src/services/data_service.py:440-445): the sorted distinct month ids
of the primary frame. -/
def get_available_months (ds : DataStore) : List ℤ :=
  if !ds.is_loaded then []
  else List.insertionSort (· ≤ ·) (ds.pgm_data.map (·.month_id)).dedup

/-- Pandas `drop_duplicates`: keep the first occurrence of each row. -/
def drop_duplicate_rows (l : List CountryEntry) : List CountryEntry :=
  l.foldl (fun acc x => if x ∈ acc then acc else acc ++ [x]) []

/-- Embeds the main branch of `DataService.get_available_countries`
(src/services/data_service.py:447-469); the fallback branches for a
missing country frame only produce generic placeholder names and are
not read by the enrichment logic modelled here. -/
def get_available_countries (ds : DataStore) : List CountryEntry :=
  if !ds.is_loaded then [] else drop_duplicate_rows ds.country_data

/-- The country-name dict `{c.country_id: c.country}` built in
`_get_enriched_forecasts` (src/services/forecast_service.py:125-126):
dict assignment makes the last entry for an id win. -/
def lookup_country_name (entries : List CountryEntry) (cid : ℤ) : Option String :=
  ((entries.filter (fun e => e.country_id == cid)).getLast?).map (·.country)

/-! ### Enrichment (src/services/forecast_service.py) -/

/-- The calendar year derived from a month id
(src/services/forecast_service.py:259; the same formula appears at
lines 37-40 and in src/services/data_service.py:280). Python `//` is
floor division, which for the positive divisor 12 agrees with the
euclidean division of `ℤ`. -/
def year_of_month_id (month_id : ℤ) : ℤ := 2025 + (month_id - 548) / 12

/-- The calendar month-of-year derived from a month id
(src/services/forecast_service.py:260). Python `%` with positive
modulus agrees with `ℤ` emod. -/
def month_of_month_id (month_id : ℤ) : ℤ := (month_id - 548) % 12 + 1

/-- Embeds `_create_grid_cell_data`
(src/services/forecast_service.py:194-295). `coord_data` has no `lat`
column in any source frame, so `get('lat') or get('latitude')` reads
the `latitude` column. -/
def create_grid_cell_data (main_row : MainRow) (hdi_data : List HdiRow)
    (coord_data : List CoordRow) (country_map : List CountryEntry)
    (metrics : MetricSelection) : GridCellData :=
  let grid_id := main_row.pg_id
  let matching_coords := coord_data.filter (fun c => c.priogrid_id == grid_id)
  let coord_fields : Option ℚ × Option ℚ × Option ℤ :=
    match matching_coords.head? with
    | some c => (c.latitude, c.longitude, c.country_id)
    | none => (none, none, none)
  let latlon : ℚ × ℚ :=
    match coord_fields.1, coord_fields.2.1 with
    | some la, some lo => (la, lo)
    | _, _ => generate_coordinates_for_grid grid_id
  let matching_hdi := hdi_data.filter (fun h => h.priogrid_id == grid_id)
  let hdi_values : Option ℚ × Option ℚ :=
    match matching_hdi.head? with
    | some h => (h.pred_ln_sb_prob_hdi_lower, h.pred_ln_sb_prob_hdi_upper)
    | none => (none, none)
  let base_prob := main_row.main_dich.getD 0.01
  let synthetic_metrics := generate_synthetic_metrics base_prob
  let country_id : Option ℤ :=
    match main_row.country_id with
    | some c => some c
    | none => coord_fields.2.2
  let country_name : Option String :=
    country_id.bind (lookup_country_name country_map)
  { grid_id := grid_id
    month_id := main_row.month_id
    country_id := country_id
    latitude := some latlon.1
    longitude := some latlon.2
    main_mean := if metrics.include_map then main_row.main_mean else none
    main_mean_ln := if metrics.include_map then main_row.main_mean_ln else none
    main_dich := if metrics.include_thresholds then main_row.main_dich else none
    hdi_50_lower := if metrics.include_hdi_50 then some synthetic_metrics.hdi_50_lower else none
    hdi_50_upper := if metrics.include_hdi_50 then some synthetic_metrics.hdi_50_upper else none
    hdi_90_lower := if metrics.include_hdi_90 then hdi_values.1 else none
    hdi_90_upper := if metrics.include_hdi_90 then hdi_values.2 else none
    hdi_99_lower := if metrics.include_hdi_99 then some synthetic_metrics.hdi_99_lower else none
    hdi_99_upper := if metrics.include_hdi_99 then some synthetic_metrics.hdi_99_upper else none
    threshold_1 := if metrics.include_thresholds then some base_prob else none
    threshold_2 := if metrics.include_thresholds then some synthetic_metrics.threshold_2 else none
    threshold_3 := if metrics.include_thresholds then some synthetic_metrics.threshold_3 else none
    threshold_4 := if metrics.include_thresholds then some synthetic_metrics.threshold_4 else none
    threshold_5 := if metrics.include_thresholds then some synthetic_metrics.threshold_5 else none
    threshold_6 := if metrics.include_thresholds then some synthetic_metrics.threshold_6 else none
    conflict_type := some .STATE_BASED
    country_name := country_name
    year := some (year_of_month_id main_row.month_id)
    month := some (month_of_month_id main_row.month_id) }

/-- The per-row body of the enrichment loop in `_get_enriched_forecasts`
(src/services/forecast_service.py:153-183): exact-key HDI selection,
coordinate lookup (dict build makes the last row per grid id win) with
synthetic fallback, then `_create_grid_cell_data`. -/
def enrich_row (hdi_data : List HdiRow) (all_coords : List CoordRow)
    (country_map : List CountryEntry) (metrics : MetricSelection)
    (main_row : MainRow) : GridCellData :=
  let hdi_row := hdi_data.filter
    (fun h => h.priogrid_id == main_row.pg_id && h.month_id == main_row.month_id)
  let coord_row : List CoordRow :=
    match (all_coords.filter (fun c => c.priogrid_id == main_row.pg_id)).getLast? with
    | some c => [c]
    | none =>
      let latlon := generate_coordinates_for_grid main_row.pg_id
      [{ priogrid_id := main_row.pg_id, latitude := some latlon.1,
         longitude := some latlon.2, country_id := main_row.country_id,
         row := some 0, col := some 0 }]
  create_grid_cell_data main_row hdi_row coord_row country_map metrics

/-- Embeds `_get_enriched_forecasts`
(src/services/forecast_service.py:108-192). -/
def get_enriched_forecasts (ds : DataStore) (grid_ids : List ℤ)
    (month_ids : Option (List ℤ)) (metrics : MetricSelection) :
    Except ApiError (List GridCellData) :=
  match get_grid_data ds grid_ids month_ids with
  | .error e => .error e
  | .ok main_data =>
    .ok (main_data.map
      (enrich_row (get_hdi_data ds grid_ids month_ids)
        (get_coordinates ds grid_ids) (get_available_countries ds) metrics))

/-- Python truthiness of an optional int: `None` and `0` are falsy. -/
def opt_truthy : Option ℤ → Bool
  | none => false
  | some v => !(v == 0)

/-- Embeds `ForecastService.get_forecasts_by_grid`
(src/services/forecast_service.py:77-93): expand the optional month
range against the available months, then enrich. Python `min`/`max`
raise on an empty sequence; the engine only reaches them with a loaded
non-empty store, modelled by the `getD 0` default. -/
def get_forecasts_by_grid (ds : DataStore) (grid_ids : List ℤ)
    (month_start month_end : Option ℤ) (metrics : MetricSelection) :
    Except ApiError (List GridCellData) :=
  let month_ids : Option (List ℤ) :=
    if opt_truthy month_start || opt_truthy month_end then
      let all_months := get_available_months ds
      let start := if opt_truthy month_start then month_start.getD 0
        else (all_months.min?).getD 0
      let stop := if opt_truthy month_end then month_end.getD 0
        else (all_months.max?).getD 0
      some (all_months.filter (fun m => start ≤ m && m ≤ stop))
    else none
  get_enriched_forecasts ds grid_ids month_ids metrics

/-- The `/api/forecasts/grid` request path (src/main.py:303-329):
pydantic builds the `MetricSelection` dependency before the handler
body runs, so an invalid configuration fails before any enrichment. -/
def run_grid_query (ds : DataStore) (grid_ids : List ℤ)
    (month_start month_end : Option ℤ) (raw : RawMetricSelection) :
    Except ApiError (List GridCellData) :=
  match parse_metric_selection raw with
  | .error e => .error e
  | .ok metrics => get_forecasts_by_grid ds grid_ids month_start month_end metrics

/-! ### Concrete example fixtures (mirroring the repo test data) -/

/-- A small loaded store with one primary row, one exactly matching HDI
row, one coordinate row and one country entry (the values of the test
fixture in src/tests/test_main.py). -/
def c3_example_store : DataStore :=
  ⟨true,
   [⟨62356, 548, some (1/1000), some (1/1000), some (1/100), some 1⟩],
   [⟨62356, 548, some (1/200), some (3/200)⟩],
   [⟨62356, some 45, some 12, some 1, some 100, some 400⟩],
   [⟨1, "Testland"⟩]⟩

/-- The single primary row of `c3_example_store`. -/
def c3_example_row : MainRow :=
  ⟨62356, 548, some (1/1000), some (1/1000), some (1/100), some 1⟩

/-- The record list the enrichment produces on `c3_example_store`. -/
def c3_example_recs : List GridCellData :=
  [enrich_row (get_hdi_data c3_example_store [62356] none)
    (get_coordinates c3_example_store [62356])
    (get_available_countries c3_example_store) {} c3_example_row]

/-! ### Helper lemmas -/

lemma mtVal_lt (seed : ℕ) : ∀ n, mtVal seed n < 4294967296
  | 0 => Nat.mod_lt _ (by norm_num)
  | n + 1 => by
    show mtStep (n + 1) (mtVal seed n) < 4294967296
    exact Nat.mod_lt _ (by norm_num)

lemma twistedWord_lt (seed i : ℕ) : twistedWord seed i < 4294967296 := by
  unfold twistedWord
  have h32 : (4294967296 : ℕ) = 2 ^ 32 := by norm_num
  have hy : (mtVal seed i &&& 0x80000000) + (mtVal seed (i + 1) &&& 0x7fffffff) <
      4294967296 := by
    have h1 : mtVal seed i &&& 0x80000000 ≤ 0x80000000 := Nat.and_le_right
    have h2 : mtVal seed (i + 1) &&& 0x7fffffff ≤ 0x7fffffff := Nat.and_le_right
    omega
  have hv : mtVal seed (i + 397) ^^^
      ((mtVal seed i &&& 0x80000000) + (mtVal seed (i + 1) &&& 0x7fffffff)) >>> 1 <
      4294967296 := by
    rw [h32]
    refine Nat.xor_lt_two_pow (h32 ▸ mtVal_lt seed (i + 397)) ?_
    calc ((mtVal seed i &&& 0x80000000) + (mtVal seed (i + 1) &&& 0x7fffffff)) >>> 1
        ≤ (mtVal seed i &&& 0x80000000) + (mtVal seed (i + 1) &&& 0x7fffffff) := by
          rw [Nat.shiftRight_eq_div_pow]; exact Nat.div_le_self _ _
      _ < 2 ^ 32 := h32 ▸ hy
  dsimp only
  split
  · rw [h32]
    exact Nat.xor_lt_two_pow (h32 ▸ hv) (by norm_num)
  · exact hv

lemma temper_lt {y : ℕ} (h : y < 4294967296) : temper y < 4294967296 := by
  unfold temper
  have h32 : (4294967296 : ℕ) = 2 ^ 32 := by norm_num
  rw [h32] at h ⊢
  have hshift : ∀ a k : ℕ, a < 2 ^ 32 → a >>> k < 2 ^ 32 := fun a k ha => by
    calc a >>> k ≤ a := by rw [Nat.shiftRight_eq_div_pow]; exact Nat.div_le_self _ _
      _ < 2 ^ 32 := ha
  have hmask : ∀ a m : ℕ, m < 2 ^ 32 → a &&& m < 2 ^ 32 := fun a m hm =>
    lt_of_le_of_lt Nat.and_le_right hm
  have h1 : y ^^^ y >>> 11 < 2 ^ 32 := Nat.xor_lt_two_pow h (hshift _ _ h)
  have h2 : (y ^^^ y >>> 11) ^^^ (y ^^^ y >>> 11) <<< 7 &&& 0x9d2c5680 < 2 ^ 32 :=
    Nat.xor_lt_two_pow h1 (hmask _ _ (by norm_num))
  have h3 : ((y ^^^ y >>> 11) ^^^ (y ^^^ y >>> 11) <<< 7 &&& 0x9d2c5680) ^^^
      ((y ^^^ y >>> 11) ^^^ (y ^^^ y >>> 11) <<< 7 &&& 0x9d2c5680) <<< 15 &&& 0xefc60000 <
      2 ^ 32 := Nat.xor_lt_two_pow h2 (hmask _ _ (by norm_num))
  exact Nat.xor_lt_two_pow h3 (hshift _ _ h3)

lemma mtOutput_lt (seed k : ℕ) : mtOutput seed k < 4294967296 :=
  temper_lt (twistedWord_lt seed k)

lemma rk_double_bounds (st : NpRandomState) :
    0 ≤ (rk_double st).1 ∧ (rk_double st).1 < 1 := by
  unfold rk_double
  constructor
  · exact div_nonneg (Nat.cast_nonneg _) (by norm_num)
  · rw [div_lt_one (by norm_num)]
    have ha : mtOutput st.seed_val st.pos >>> 5 < 134217728 := by
      have := mtOutput_lt st.seed_val st.pos
      rw [Nat.shiftRight_eq_div_pow]
      omega
    have hb : mtOutput st.seed_val (st.pos + 1) >>> 6 < 67108864 := by
      have := mtOutput_lt st.seed_val (st.pos + 1)
      rw [Nat.shiftRight_eq_div_pow]
      omega
    have hnum : mtOutput st.seed_val st.pos >>> 5 * 67108864 +
        mtOutput st.seed_val (st.pos + 1) >>> 6 < 9007199254740992 := by
      have := Nat.mul_le_mul_right 67108864 (Nat.lt_succ_iff.mp ha)
      omega
    exact_mod_cast hnum

lemma np_uniform_bounds (low high : ℚ) (st : NpRandomState) (h : low < high) :
    low ≤ (np_uniform low high st).1 ∧ (np_uniform low high st).1 < high := by
  unfold np_uniform
  obtain ⟨h0, h1⟩ := rk_double_bounds st
  constructor
  · have := mul_nonneg (sub_nonneg.mpr h.le) h0
    simp only
    linarith
  · have := mul_lt_of_lt_one_right (sub_pos.mpr h) h1
    simp only
    linarith

lemma clampMax_nonneg (p u : ℚ) : 0 ≤ max 0 (p - u) := le_max_left _ _

lemma clampMax_le_one (p u : ℚ) (hp : p ≤ 1) (hu : 0 < u) : max 0 (p - u) ≤ 1 :=
  max_le zero_le_one (by linarith)

lemma clampMax_lt_or_zero (p u : ℚ) (hu : 0 < u) :
    max 0 (p - u) < p ∨ max 0 (p - u) = 0 := by
  rcases le_or_lt (p - u) 0 with h | h
  · exact Or.inr (max_eq_left h)
  · refine Or.inl ?_
    rw [max_eq_right h.le]
    linarith

lemma clampMax_anti (p u v : ℚ) (huv : u ≤ v) :
    max 0 (p - v) ≤ max 0 (p - u) :=
  max_le_max le_rfl (by linarith)

lemma clampMax_le_min (p u v : ℚ) (hp0 : 0 ≤ p) (hp1 : p ≤ 1)
    (hu : 0 < u) (hv : 0 < v) : max 0 (p - u) ≤ min 1 (p + v) :=
  max_le (le_min zero_le_one (by linarith)) (le_min (by linarith) (by linarith))

/-- The nine uniform draws of `_generate_synthetic_metrics` with their
generator states written explicitly (draw `k` starts at output
position `2 k`). -/
lemma generate_synthetic_metrics_st_eq (rng : NpRandomState) (p : ℚ) :
    generate_synthetic_metrics_st rng p =
      { hdi_50_lower := max 0 (p - (np_uniform 0.001 0.005 ⟨seed_of_prob p % 4294967296, 0⟩).1)
        hdi_50_upper := min 1 (p + (np_uniform 0.001 0.005 ⟨seed_of_prob p % 4294967296, 2⟩).1)
        hdi_99_lower := max 0 (p - (np_uniform 0.01 0.03 ⟨seed_of_prob p % 4294967296, 4⟩).1)
        hdi_99_upper := min 1 (p + (np_uniform 0.01 0.03 ⟨seed_of_prob p % 4294967296, 6⟩).1)
        threshold_2 := max 0 (p - (np_uniform 0.001 0.01 ⟨seed_of_prob p % 4294967296, 8⟩).1)
        threshold_3 := max 0 (p - (np_uniform 0.01 0.02 ⟨seed_of_prob p % 4294967296, 10⟩).1)
        threshold_4 := max 0 (p - (np_uniform 0.02 0.04 ⟨seed_of_prob p % 4294967296, 12⟩).1)
        threshold_5 := max 0 (p - (np_uniform 0.03 0.06 ⟨seed_of_prob p % 4294967296, 14⟩).1)
        threshold_6 := max 0 (p - (np_uniform 0.05 0.08 ⟨seed_of_prob p % 4294967296, 16⟩).1) } :=
  rfl

/-! ### Cross-checks of the embedded primitives

The MT19937 embedding is checked against the published behaviour of
numpy RandomState (seed 42 gives first sample 0.3745401188473625,
seed 0 gives 0.5488135039273248, both exact 53-bit dyadics), and the
MD5 embedding against the standard digests of the empty string and
"abc" and the digest the coordinate fallback uses for grid 999999. -/

lemma rk_double_seed42_spec :
    (rk_double (np_seed 42)).1 = 3373557479352566 / 9007199254740992 := by
  have h0 : mtOutput 42 0 >>> 5 = 50269923 := by decide
  have h1 : mtOutput 42 1 >>> 6 = 53455094 := by decide
  have he : (rk_double (np_seed 42)).1 =
      ((mtOutput (42 % 4294967296) 0 >>> 5 * 67108864 +
        mtOutput (42 % 4294967296) 1 >>> 6 : ℕ) : ℚ) / 9007199254740992 := rfl
  rw [he]
  norm_num [h0, h1]

lemma rk_double_seed0_spec :
    (rk_double (np_seed 0)).1 = 4943272583565992 / 9007199254740992 := by
  have h0 : mtOutput 0 0 >>> 5 = 73660501 := by decide
  have h1 : mtOutput 0 1 >>> 6 = 39785128 := by decide
  have he : (rk_double (np_seed 0)).1 =
      ((mtOutput (0 % 4294967296) 0 >>> 5 * 67108864 +
        mtOutput (0 % 4294967296) 1 >>> 6 : ℕ) : ℚ) / 9007199254740992 := rfl
  rw [he]
  norm_num [h0, h1]

lemma md5_empty_spec : md5_first32 [] = 3558706393 := by decide

lemma md5_abc_spec : md5_first32 [97, 98, 99] = 2416005272 := by decide

lemma md5_999999_spec : md5_first32 (str_bytes 999999) = 1388748346 := by decide

/-! ### Claim theorems -/

/-- C1: the spec (and the comments in the code itself) anchor the epoch
mapping at month_id 548 = August 2025, with
year = 2025 + (m - 548 + 7) / 12 and month = (m - 548 + 7) % 12 + 1.
The code computes year = 2025 + (m - 548) / 12 and
month = (m - 548) % 12 + 1 (src/services/forecast_service.py:259-260),
so the enriched record for month_id 548 carries calendar month 1, not
month 8: the code contradicts its own stated anchor. This theorem
evaluates the embedded code at the failing input. -/
theorem c1_epoch_mapping_code_eval :
    (∀ (pg : ℤ) (mm ml md : Option ℚ) (cid : Option ℤ) (hdi : List HdiRow)
      (coords : List CoordRow) (cmap : List CountryEntry) (metrics : MetricSelection),
      (create_grid_cell_data ⟨pg, 548, mm, ml, md, cid⟩ hdi coords cmap metrics).year =
        some 2025 ∧
      (create_grid_cell_data ⟨pg, 548, mm, ml, md, cid⟩ hdi coords cmap metrics).month =
        some 1) ∧
    year_of_month_id 548 = 2025 ∧ month_of_month_id 548 = 1 := by
  refine ⟨?_, by norm_num [year_of_month_id], by norm_num [month_of_month_id]⟩
  intro pg mm ml md cid hdi coords cmap metrics
  constructor
  · show some (year_of_month_id 548) = some 2025
    norm_num [year_of_month_id]
  · show some (month_of_month_id 548) = some 1
    norm_num [month_of_month_id]

/-- C6: determinism of the fallback generators. The synthetic-metrics
generator reseeds the global numpy generator from the point estimate,
so its output does not depend on the incoming generator state; the
coordinate generator is a pure function of the grid id, so two calls
agree definitionally. -/
theorem c6_fallback_determinism :
    ∀ (st1 st2 : NpRandomState) (p : ℚ) (g : ℤ),
      generate_synthetic_metrics_st st1 p = generate_synthetic_metrics_st st2 p ∧
      generate_coordinates_for_grid g = generate_coordinates_for_grid g :=
  fun _ _ _ _ => ⟨rfl, rfl⟩

/-- C7: the coordinate fallback hashes the decimal string of the grid
id with MD5, takes the first 32 bits as `h`, and maps
`h % 13000 / 100 - 60` to latitude and `(h / 13000) % 36000 / 100 - 180`
to longitude, so the synthetic latitude lies in `[-60, 70)` and the
synthetic longitude in `[-180, 180)`. -/
theorem c7_coordinate_fallback_formula :
    ∀ g : ℤ,
      generate_coordinates_for_grid g =
        (((md5_first32 (str_bytes g) % 13000 : ℕ) : ℚ) / 100 - 60,
         ((md5_first32 (str_bytes g) / 13000 % 36000 : ℕ) : ℚ) / 100 - 180) ∧
      -60 ≤ (generate_coordinates_for_grid g).1 ∧
      (generate_coordinates_for_grid g).1 < 70 ∧
      -180 ≤ (generate_coordinates_for_grid g).2 ∧
      (generate_coordinates_for_grid g).2 < 180 := by
  intro g
  have hlat0 : (0 : ℚ) ≤ ((md5_first32 (str_bytes g) % 13000 : ℕ) : ℚ) / 100 :=
    div_nonneg (Nat.cast_nonneg _) (by norm_num)
  have hlat1 : ((md5_first32 (str_bytes g) % 13000 : ℕ) : ℚ) < 13000 := by
    exact_mod_cast Nat.mod_lt _ (show 0 < 13000 by norm_num)
  have hlat2 : ((md5_first32 (str_bytes g) % 13000 : ℕ) : ℚ) / 100 < 130 := by
    rw [div_lt_iff₀ (by norm_num)]
    linarith
  have hlon0 : (0 : ℚ) ≤ ((md5_first32 (str_bytes g) / 13000 % 36000 : ℕ) : ℚ) / 100 :=
    div_nonneg (Nat.cast_nonneg _) (by norm_num)
  have hlon1 : ((md5_first32 (str_bytes g) / 13000 % 36000 : ℕ) : ℚ) < 36000 := by
    exact_mod_cast Nat.mod_lt _ (show 0 < 36000 by norm_num)
  have hlon2 : ((md5_first32 (str_bytes g) / 13000 % 36000 : ℕ) : ℚ) / 100 < 360 := by
    rw [div_lt_iff₀ (by norm_num)]
    linarith
  refine ⟨rfl, ?_, ?_, ?_, ?_⟩ <;>
    simp only [generate_coordinates_for_grid] <;> linarith

/-- C10: every enriched record carries the state-based conflict-type
tag, independently of all inputs and of the requested conflict types
(src/services/forecast_service.py:291). -/
theorem c10_conflict_type_always_sb :
    ∀ (main_row : MainRow) (hdi : List HdiRow) (coords : List CoordRow)
      (cmap : List CountryEntry) (metrics : MetricSelection),
      (create_grid_cell_data main_row hdi coords cmap metrics).conflict_type =
        some ConflictType.STATE_BASED :=
  fun _ _ _ _ _ => rfl

/-- C9: projection shape invariance. The output record has the same
field set for every metric selection (only null patterns differ): the
identity, geolocation and metadata fields are independent of the
selection, and each group flag set to false forces exactly its fields
to null. -/
theorem c9_projection_shape_invariance :
    ∀ (main_row : MainRow) (hdi : List HdiRow) (coords : List CoordRow)
      (cmap : List CountryEntry) (m1 m2 : MetricSelection),
      ((create_grid_cell_data main_row hdi coords cmap m1).grid_id =
        (create_grid_cell_data main_row hdi coords cmap m2).grid_id ∧
       (create_grid_cell_data main_row hdi coords cmap m1).month_id =
        (create_grid_cell_data main_row hdi coords cmap m2).month_id ∧
       (create_grid_cell_data main_row hdi coords cmap m1).country_id =
        (create_grid_cell_data main_row hdi coords cmap m2).country_id ∧
       (create_grid_cell_data main_row hdi coords cmap m1).latitude =
        (create_grid_cell_data main_row hdi coords cmap m2).latitude ∧
       (create_grid_cell_data main_row hdi coords cmap m1).longitude =
        (create_grid_cell_data main_row hdi coords cmap m2).longitude ∧
       (create_grid_cell_data main_row hdi coords cmap m1).conflict_type =
        (create_grid_cell_data main_row hdi coords cmap m2).conflict_type ∧
       (create_grid_cell_data main_row hdi coords cmap m1).country_name =
        (create_grid_cell_data main_row hdi coords cmap m2).country_name ∧
       (create_grid_cell_data main_row hdi coords cmap m1).year =
        (create_grid_cell_data main_row hdi coords cmap m2).year ∧
       (create_grid_cell_data main_row hdi coords cmap m1).month =
        (create_grid_cell_data main_row hdi coords cmap m2).month) ∧
      (m1.include_map = false →
        (create_grid_cell_data main_row hdi coords cmap m1).main_mean = none ∧
        (create_grid_cell_data main_row hdi coords cmap m1).main_mean_ln = none) ∧
      (m1.include_thresholds = false →
        (create_grid_cell_data main_row hdi coords cmap m1).main_dich = none ∧
        (create_grid_cell_data main_row hdi coords cmap m1).threshold_1 = none ∧
        (create_grid_cell_data main_row hdi coords cmap m1).threshold_2 = none ∧
        (create_grid_cell_data main_row hdi coords cmap m1).threshold_3 = none ∧
        (create_grid_cell_data main_row hdi coords cmap m1).threshold_4 = none ∧
        (create_grid_cell_data main_row hdi coords cmap m1).threshold_5 = none ∧
        (create_grid_cell_data main_row hdi coords cmap m1).threshold_6 = none) ∧
      (m1.include_hdi_50 = false →
        (create_grid_cell_data main_row hdi coords cmap m1).hdi_50_lower = none ∧
        (create_grid_cell_data main_row hdi coords cmap m1).hdi_50_upper = none) ∧
      (m1.include_hdi_90 = false →
        (create_grid_cell_data main_row hdi coords cmap m1).hdi_90_lower = none ∧
        (create_grid_cell_data main_row hdi coords cmap m1).hdi_90_upper = none) ∧
      (m1.include_hdi_99 = false →
        (create_grid_cell_data main_row hdi coords cmap m1).hdi_99_lower = none ∧
        (create_grid_cell_data main_row hdi coords cmap m1).hdi_99_upper = none) := by
  intro main_row hdi coords cmap m1 m2
  refine ⟨⟨rfl, rfl, rfl, rfl, rfl, rfl, rfl, rfl, rfl⟩, ?_, ?_, ?_, ?_, ?_⟩ <;>
    intro h <;> simp [create_grid_cell_data, h]

/-- Witness for C9 at a concrete record and an all-false selection. -/
theorem c9_projection_witness :
    (⟨false, false, false, false, false, []⟩ : MetricSelection).include_map = false ∧
    (create_grid_cell_data ⟨62356, 548, some 0.001, some 0.001, some 0.01, some 1⟩
      [] [] [] ⟨false, false, false, false, false, []⟩).main_mean = none :=
  ⟨rfl, ((c9_projection_shape_invariance
    ⟨62356, 548, some 0.001, some 0.001, some 0.01, some 1⟩ [] [] []
    ⟨false, false, false, false, false, []⟩
    ⟨false, false, false, false, false, []⟩).2.1 rfl).1⟩

/-- C2 counterexample: the claim asserts a monotone-decreasing
threshold sequence for every point estimate in `[0, 1]`, but at
p = 1725/20000 = 0.08625 (seed 862) the draw for threshold_4 from
U(0.02, 0.04) is about 0.0398 while the draw for threshold_5 from
U(0.03, 0.06) is about 0.0302, so threshold_4 < threshold_5. -/
theorem c2_threshold_monotonicity_counterexample :
    0 ≤ (1725/20000 : ℚ) ∧ (1725/20000 : ℚ) ≤ 1 ∧
    (generate_synthetic_metrics (1725/20000)).threshold_4 <
      (generate_synthetic_metrics (1725/20000)).threshold_5 := by
  refine ⟨by norm_num, by norm_num, ?_⟩
  have hseed : seed_of_prob (1725/20000) = 862 := by
    norm_num [seed_of_prob, rat_trunc]
    decide
  have h12 : mtOutput 862 12 = 4246847510 := by decide
  have h13 : mtOutput 862 13 = 3505424637 := by decide
  have h14 : mtOutput 862 14 = 35366961 := by decide
  have h15 : mtOutput 862 15 = 1965466372 := by decide
  simp [generate_synthetic_metrics, generate_synthetic_metrics_st, np_uniform,
    rk_double, np_seed, hseed, h12, h13, h14, h15]
  norm_num [max_def]

/-- C2 amended: every synthesized threshold slot is strictly below the
point estimate or clamped to zero, and the slots through threshold_4
are monotone decreasing (their offset ranges (0.001,0.01), (0.01,0.02),
(0.02,0.04) do not overlap); the later ranges (0.02,0.04), (0.03,0.06),
(0.05,0.08) overlap, so monotonicity of slots 4-6 is not guaranteed
(see the counterexample). -/
theorem c2_threshold_offsets_amended :
    ∀ p : ℚ, 0 ≤ p → p ≤ 1 →
      (p ≥ (generate_synthetic_metrics p).threshold_2 ∧
       (generate_synthetic_metrics p).threshold_2 ≥
         (generate_synthetic_metrics p).threshold_3 ∧
       (generate_synthetic_metrics p).threshold_3 ≥
         (generate_synthetic_metrics p).threshold_4) ∧
      ((generate_synthetic_metrics p).threshold_2 < p ∨
        (generate_synthetic_metrics p).threshold_2 = 0) ∧
      ((generate_synthetic_metrics p).threshold_3 < p ∨
        (generate_synthetic_metrics p).threshold_3 = 0) ∧
      ((generate_synthetic_metrics p).threshold_4 < p ∨
        (generate_synthetic_metrics p).threshold_4 = 0) ∧
      ((generate_synthetic_metrics p).threshold_5 < p ∨
        (generate_synthetic_metrics p).threshold_5 = 0) ∧
      ((generate_synthetic_metrics p).threshold_6 < p ∨
        (generate_synthetic_metrics p).threshold_6 = 0) := by
  intro p hp0 _
  simp only [generate_synthetic_metrics, generate_synthetic_metrics_st_eq]
  obtain ⟨h5a, h5b⟩ :=
    np_uniform_bounds 0.001 0.01 ⟨seed_of_prob p % 4294967296, 8⟩ (by norm_num)
  obtain ⟨h6a, h6b⟩ :=
    np_uniform_bounds 0.01 0.02 ⟨seed_of_prob p % 4294967296, 10⟩ (by norm_num)
  obtain ⟨h7a, h7b⟩ :=
    np_uniform_bounds 0.02 0.04 ⟨seed_of_prob p % 4294967296, 12⟩ (by norm_num)
  obtain ⟨h8a, h8b⟩ :=
    np_uniform_bounds 0.03 0.06 ⟨seed_of_prob p % 4294967296, 14⟩ (by norm_num)
  obtain ⟨h9a, h9b⟩ :=
    np_uniform_bounds 0.05 0.08 ⟨seed_of_prob p % 4294967296, 16⟩ (by norm_num)
  refine ⟨⟨max_le hp0 (by linarith), clampMax_anti p _ _ (by linarith),
    clampMax_anti p _ _ (by linarith)⟩,
    clampMax_lt_or_zero p _ (by linarith), clampMax_lt_or_zero p _ (by linarith),
    clampMax_lt_or_zero p _ (by linarith), clampMax_lt_or_zero p _ (by linarith),
    clampMax_lt_or_zero p _ (by linarith)⟩

/-- Witness for the amended C2 at p = 1/2. -/
theorem c2_threshold_offsets_amended_witness :
    0 ≤ (1/2 : ℚ) ∧ (1/2 : ℚ) ≤ 1 ∧
    (1/2 : ℚ) ≥ (generate_synthetic_metrics (1/2)).threshold_2 :=
  ⟨by norm_num, by norm_num,
    (c2_threshold_offsets_amended (1/2) (by norm_num) (by norm_num)).1.1⟩

/-- C5: every synthesized bound is clamped into `[0, 1]` — synthesized
lower bounds are nonnegative, synthesized upper bounds are at most one
— and each synthesized pair satisfies lower ≤ upper; the threshold
slots also lie in `[0, 1]`. -/
theorem c5_synthetic_bounds_clamped :
    ∀ p : ℚ, 0 ≤ p → p ≤ 1 →
      (0 ≤ (generate_synthetic_metrics p).hdi_50_lower ∧
       (generate_synthetic_metrics p).hdi_50_upper ≤ 1 ∧
       (generate_synthetic_metrics p).hdi_50_lower ≤
         (generate_synthetic_metrics p).hdi_50_upper) ∧
      (0 ≤ (generate_synthetic_metrics p).hdi_99_lower ∧
       (generate_synthetic_metrics p).hdi_99_upper ≤ 1 ∧
       (generate_synthetic_metrics p).hdi_99_lower ≤
         (generate_synthetic_metrics p).hdi_99_upper) ∧
      (0 ≤ (generate_synthetic_metrics p).threshold_2 ∧
        (generate_synthetic_metrics p).threshold_2 ≤ 1) ∧
      (0 ≤ (generate_synthetic_metrics p).threshold_3 ∧
        (generate_synthetic_metrics p).threshold_3 ≤ 1) ∧
      (0 ≤ (generate_synthetic_metrics p).threshold_4 ∧
        (generate_synthetic_metrics p).threshold_4 ≤ 1) ∧
      (0 ≤ (generate_synthetic_metrics p).threshold_5 ∧
        (generate_synthetic_metrics p).threshold_5 ≤ 1) ∧
      (0 ≤ (generate_synthetic_metrics p).threshold_6 ∧
        (generate_synthetic_metrics p).threshold_6 ≤ 1) := by
  intro p hp0 hp1
  simp only [generate_synthetic_metrics, generate_synthetic_metrics_st_eq]
  obtain ⟨h1a, h1b⟩ :=
    np_uniform_bounds 0.001 0.005 ⟨seed_of_prob p % 4294967296, 0⟩ (by norm_num)
  obtain ⟨h2a, h2b⟩ :=
    np_uniform_bounds 0.001 0.005 ⟨seed_of_prob p % 4294967296, 2⟩ (by norm_num)
  obtain ⟨h3a, h3b⟩ :=
    np_uniform_bounds 0.01 0.03 ⟨seed_of_prob p % 4294967296, 4⟩ (by norm_num)
  obtain ⟨h4a, h4b⟩ :=
    np_uniform_bounds 0.01 0.03 ⟨seed_of_prob p % 4294967296, 6⟩ (by norm_num)
  obtain ⟨h5a, h5b⟩ :=
    np_uniform_bounds 0.001 0.01 ⟨seed_of_prob p % 4294967296, 8⟩ (by norm_num)
  obtain ⟨h6a, h6b⟩ :=
    np_uniform_bounds 0.01 0.02 ⟨seed_of_prob p % 4294967296, 10⟩ (by norm_num)
  obtain ⟨h7a, h7b⟩ :=
    np_uniform_bounds 0.02 0.04 ⟨seed_of_prob p % 4294967296, 12⟩ (by norm_num)
  obtain ⟨h8a, h8b⟩ :=
    np_uniform_bounds 0.03 0.06 ⟨seed_of_prob p % 4294967296, 14⟩ (by norm_num)
  obtain ⟨h9a, h9b⟩ :=
    np_uniform_bounds 0.05 0.08 ⟨seed_of_prob p % 4294967296, 16⟩ (by norm_num)
  refine ⟨⟨clampMax_nonneg _ _, min_le_left _ _,
      clampMax_le_min _ _ _ hp0 hp1 (by linarith) (by linarith)⟩,
    ⟨clampMax_nonneg _ _, min_le_left _ _,
      clampMax_le_min _ _ _ hp0 hp1 (by linarith) (by linarith)⟩,
    ⟨clampMax_nonneg _ _, clampMax_le_one _ _ hp1 (by linarith)⟩,
    ⟨clampMax_nonneg _ _, clampMax_le_one _ _ hp1 (by linarith)⟩,
    ⟨clampMax_nonneg _ _, clampMax_le_one _ _ hp1 (by linarith)⟩,
    ⟨clampMax_nonneg _ _, clampMax_le_one _ _ hp1 (by linarith)⟩,
    ⟨clampMax_nonneg _ _, clampMax_le_one _ _ hp1 (by linarith)⟩⟩

/-- Witness for C5 at the spec example p = 0.999. -/
theorem c5_synthetic_bounds_clamped_witness :
    0 ≤ (999/1000 : ℚ) ∧ (999/1000 : ℚ) ≤ 1 ∧
    (generate_synthetic_metrics (999/1000)).hdi_50_upper ≤ 1 :=
  ⟨by norm_num, by norm_num,
    (c5_synthetic_bounds_clamped (999/1000) (by norm_num) (by norm_num)).1.2.1⟩

lemma parse_conflict_types_unknown :
    ∀ (l : List String) (t : String), t ∈ l → ConflictType.from_tag t = none →
      parse_conflict_types l = .error .invalidArgument := by
  intro l
  induction l with
  | nil => intro t ht _; cases ht
  | cons hd ts ih =>
    intro t ht hnone
    rcases List.mem_cons.mp ht with rfl | hmem
    · simp [parse_conflict_types, hnone]
    · cases hh : ConflictType.from_tag hd with
      | none => simp [parse_conflict_types, hh]
      | some c =>
        have hts := ih t hmem hnone
        simp [parse_conflict_types, hh, hts]

/-- C4: a metric-selection configuration referencing a conflict-type
tag outside the recognized set fails the grid-forecast query with an
invalid-argument error, before any record is produced. -/
theorem c4_unknown_conflict_type_tag :
    ∀ (ds : DataStore) (grid_ids : List ℤ) (month_start month_end : Option ℤ)
      (raw : RawMetricSelection) (t : String),
      t ∈ raw.conflict_types → t ≠ "sb" → t ≠ "ns" → t ≠ "os" →
      run_grid_query ds grid_ids month_start month_end raw =
        .error .invalidArgument := by
  intro ds grid_ids ms me raw t hmem h1 h2 h3
  have hnone : ConflictType.from_tag t = none := by
    simp [ConflictType.from_tag, h1, h2, h3]
  have hparse := parse_conflict_types_unknown raw.conflict_types t hmem hnone
  simp [run_grid_query, parse_metric_selection, hparse]

/-- Witness for C4 with the unknown tag "xx". -/
theorem c4_unknown_conflict_type_tag_witness :
    "xx" ∈ (⟨true, false, true, false, true, ["xx"]⟩ : RawMetricSelection).conflict_types ∧
    run_grid_query ⟨true, [], [], [], []⟩ [62356] none none
      ⟨true, false, true, false, true, ["xx"]⟩ = .error .invalidArgument :=
  ⟨List.mem_singleton.mpr rfl,
    c4_unknown_conflict_type_tag ⟨true, [], [], [], []⟩ [62356] none none
      ⟨true, false, true, false, true, ["xx"]⟩ "xx"
      (List.mem_singleton.mpr rfl) (by decide) (by decide) (by decide)⟩

lemma get_grid_data_empty {ds : DataStore} {grid_ids : List ℤ}
    {month_ids : Option (List ℤ)}
    (hempty : ds.pgm_data.filter
      (fun r => grid_ids.contains r.pg_id && month_list_filter month_ids r.month_id) = []) :
    get_grid_data ds grid_ids month_ids = .error .notFound := by
  unfold get_grid_data
  split
  · rfl
  · dsimp only
    rw [hempty]
    rfl

lemma get_grid_data_ok {ds : DataStore} {grid_ids : List ℤ}
    {month_ids : Option (List ℤ)} {main : List MainRow}
    (h : get_grid_data ds grid_ids month_ids = .ok main) :
    main = ds.pgm_data.filter
      (fun r => grid_ids.contains r.pg_id && month_list_filter month_ids r.month_id) ∧
    main ≠ [] := by
  unfold get_grid_data at h
  split at h
  · cases h
  · dsimp only at h
    split at h
    · cases h
    · rename_i hne
      injection h with h'
      subst h'
      refine ⟨rfl, fun hnil => hne ?_⟩
      rw [hnil]
      rfl

/-- C8: a query whose requested grid ids (and optional month range)
match zero rows of the primary source fails with the not-found error,
and a successful query never returns an empty record list. -/
theorem c8_empty_primary_not_found :
    ∀ (ds : DataStore) (grid_ids : List ℤ) (month_ids : Option (List ℤ))
      (metrics : MetricSelection),
      (ds.pgm_data.filter
        (fun r => grid_ids.contains r.pg_id && month_list_filter month_ids r.month_id) = [] →
        get_enriched_forecasts ds grid_ids month_ids metrics = .error .notFound) ∧
      (∀ recs, get_enriched_forecasts ds grid_ids month_ids metrics = .ok recs →
        recs ≠ []) := by
  intro ds grid_ids month_ids metrics
  constructor
  · intro hempty
    unfold get_enriched_forecasts
    rw [get_grid_data_empty hempty]
  · intro recs hok
    unfold get_enriched_forecasts at hok
    cases hg : get_grid_data ds grid_ids month_ids with
    | error e => rw [hg] at hok; cases hok
    | ok main =>
      rw [hg] at hok
      obtain ⟨_, hne⟩ := get_grid_data_ok hg
      injection hok with h'
      intro hnil
      rw [←h'] at hnil
      exact hne (List.map_eq_nil_iff.mp hnil)

/-- Witness for C8: an empty primary source yields the not-found error. -/
theorem c8_empty_primary_not_found_witness :
    (⟨true, [], [], [], []⟩ : DataStore).pgm_data.filter
      (fun r => [(999999 : ℤ)].contains r.pg_id && month_list_filter none r.month_id) = [] ∧
    get_enriched_forecasts ⟨true, [], [], [], []⟩ [999999] none {} = .error .notFound :=
  ⟨rfl, (c8_empty_primary_not_found ⟨true, [], [], [], []⟩ [999999] none {}).1 rfl⟩

lemma get_hdi_data_eq (ds : DataStore) (grid_ids : List ℤ)
    (month_ids : Option (List ℤ)) :
    get_hdi_data ds grid_ids month_ids = ds.hdi_data.filter
      (fun h => grid_ids.contains h.priogrid_id &&
        month_list_filter month_ids h.month_id) := rfl

lemma find?_filter_of_imp {α : Type} (l : List α) (coarse key : α → Bool)
    (himp : ∀ x, key x = true → coarse x = true) :
    (l.filter coarse).find? key = l.find? key := by
  induction l with
  | nil => rfl
  | cons a t ih =>
    by_cases hc : coarse a = true
    · cases hk : key a <;>
        simp [List.filter_cons, hc, List.find?_cons, hk, ih]
    · have hk : key a = false := by
        cases hk : key a
        · rfl
        · exact absurd (himp a hk) hc
      simp [List.filter_cons, hc, List.find?_cons, hk, ih]

lemma enrich_hdi90_fields (hdi : List HdiRow) (coords : List CoordRow)
    (cmap : List CountryEntry) (metrics : MetricSelection) (row : MainRow) :
    (enrich_row hdi coords cmap metrics row).hdi_90_lower =
      (if metrics.include_hdi_90 then
        (match hdi.find? (fun h => h.priogrid_id == row.pg_id &&
            h.month_id == row.month_id) with
         | some h => h.pred_ln_sb_prob_hdi_lower
         | none => none)
       else none) ∧
    (enrich_row hdi coords cmap metrics row).hdi_90_upper =
      (if metrics.include_hdi_90 then
        (match hdi.find? (fun h => h.priogrid_id == row.pg_id &&
            h.month_id == row.month_id) with
         | some h => h.pred_ln_sb_prob_hdi_upper
         | none => none)
       else none) := by
  constructor <;>
    cases hh : hdi.find? (fun h => h.priogrid_id == row.pg_id &&
        h.month_id == row.month_id) <;>
      simp [enrich_row, create_grid_cell_data, hh]

/-- C3: the primary (90-percent style) uncertainty band is
real-or-nothing. For every record produced by the enrichment with the
90-percent band selected, if the HDI source has a row for the exact
(grid_id, month_id) key then the record carries the first such source
row's bounds verbatim, and if the source has no such row then both
bounds are null; synthetic values never reach this band. -/
theorem c3_hdi90_real_or_nothing :
    ∀ (ds : DataStore) (grid_ids : List ℤ) (month_ids : Option (List ℤ))
      (metrics : MetricSelection) (recs : List GridCellData),
      metrics.include_hdi_90 = true →
      get_enriched_forecasts ds grid_ids month_ids metrics = .ok recs →
      ∀ r ∈ recs,
        (∀ h, (ds.hdi_data.filter (fun x => x.priogrid_id == r.grid_id &&
            x.month_id == r.month_id)).head? = some h →
          r.hdi_90_lower = h.pred_ln_sb_prob_hdi_lower ∧
          r.hdi_90_upper = h.pred_ln_sb_prob_hdi_upper) ∧
        ((ds.hdi_data.filter (fun x => x.priogrid_id == r.grid_id &&
            x.month_id == r.month_id)).head? = none →
          r.hdi_90_lower = none ∧ r.hdi_90_upper = none) := by
  intro ds grid_ids month_ids metrics recs h90 hok r hr
  unfold get_enriched_forecasts at hok
  cases hg : get_grid_data ds grid_ids month_ids with
  | error e => rw [hg] at hok; cases hok
  | ok main =>
    rw [hg] at hok
    injection hok with h'
    obtain ⟨hfil, _⟩ := get_grid_data_ok hg
    rw [←h'] at hr
    obtain ⟨row, hrow_mem, hrow_eq⟩ := List.mem_map.mp hr
    have hrowf : (grid_ids.contains row.pg_id &&
        month_list_filter month_ids row.month_id) = true := by
      rw [hfil] at hrow_mem
      exact (List.mem_filter.mp hrow_mem).2
    rw [Bool.and_eq_true] at hrowf
    obtain ⟨hcg, hcm⟩ := hrowf
    subst hrow_eq
    have hgid : (enrich_row (get_hdi_data ds grid_ids month_ids)
        (get_coordinates ds grid_ids) (get_available_countries ds) metrics
        row).grid_id = row.pg_id := rfl
    have hmid : (enrich_row (get_hdi_data ds grid_ids month_ids)
        (get_coordinates ds grid_ids) (get_available_countries ds) metrics
        row).month_id = row.month_id := rfl
    rw [hgid, hmid]
    have hfields := enrich_hdi90_fields (get_hdi_data ds grid_ids month_ids)
      (get_coordinates ds grid_ids) (get_available_countries ds) metrics row
    have hchain : (get_hdi_data ds grid_ids month_ids).find?
        (fun h => h.priogrid_id == row.pg_id && h.month_id == row.month_id) =
        ds.hdi_data.find? (fun h => h.priogrid_id == row.pg_id &&
          h.month_id == row.month_id) := by
      rw [get_hdi_data_eq]
      apply find?_filter_of_imp
      intro x hx
      rw [Bool.and_eq_true] at hx
      rw [Bool.and_eq_true]
      refine ⟨?_, ?_⟩
      · rw [beq_iff_eq.mp hx.1]
        exact hcg
      · rw [beq_iff_eq.mp hx.2]
        exact hcm
    rw [hchain] at hfields
    rw [List.filter_head?]
    constructor
    · intro h hsome
      rw [hfields.1, hfields.2, h90, hsome]
      simp
    · intro hnone
      rw [hfields.1, hfields.2, h90, hnone]
      simp

/-- Witness for C3 on the example store: the enrichment succeeds and
every returned record satisfies the real-or-nothing property. -/
theorem c3_hdi90_real_or_nothing_witness :
    ({} : MetricSelection).include_hdi_90 = true ∧
    get_enriched_forecasts c3_example_store [62356] none {} = .ok c3_example_recs ∧
    ∀ r ∈ c3_example_recs,
      (∀ h, (c3_example_store.hdi_data.filter (fun x => x.priogrid_id == r.grid_id &&
          x.month_id == r.month_id)).head? = some h →
        r.hdi_90_lower = h.pred_ln_sb_prob_hdi_lower ∧
        r.hdi_90_upper = h.pred_ln_sb_prob_hdi_upper) ∧
      ((c3_example_store.hdi_data.filter (fun x => x.priogrid_id == r.grid_id &&
          x.month_id == r.month_id)).head? = none →
        r.hdi_90_lower = none ∧ r.hdi_90_upper = none) :=
  ⟨rfl, rfl,
    c3_hdi90_real_or_nothing c3_example_store [62356] none {} c3_example_recs rfl rfl⟩
